import Mathlib

/-
  Verification of the AI RideWise bike-demand dashboard (src/app.py).

  The script is embedded shallowly:
  * the regression artifact (`bike_demand_model.pkl`) is an abstract function
    from an 11-value feature row to a numeric prediction; a fallible variant
    models a `predict` call that may raise;
  * Python `int(...)` on a numeric value is truncation toward zero;
  * the hourly and daily branches of the "Predict Demand" handler are the
    corresponding list computations, with an instrumented variant that also
    records every row passed to `model.predict`;
  * the whole script run (model load at import time, then the button handler)
    is `runScript`, with `Except.error` playing the role of `st.error` +
    `st.stop` and of an uncaught exception reaching the UI boundary.
-/

namespace AiRideWise

/-- The loaded regression artifact: maps an 11-value feature row to one
numeric prediction, as in `model.predict(row)[0]` (src/app.py line 178). -/
abbrev Model : Type := List ℚ → ℚ

/-- A model whose predict call may raise: the Python exception is an
`Except.error` carrying its message. -/
abbrev FallibleModel : Type := List ℚ → Except String ℚ

/-- Python `int()` applied to a numeric value: truncation toward zero
(floor for non-negative arguments, ceiling for negative ones). -/
def pyInt (q : ℚ) : ℤ := if 0 ≤ q then ⌊q⌋ else ⌈q⌉

/-- The nine user-selected inputs that stay constant across one aggregation
run (src/app.py lines 140 to 166): the widget globals other than `weekday`
and `hr`. -/
structure Context where
  season : ℕ
  mnth : ℕ
  holiday : ℕ
  workingday : ℕ
  weathersit : ℕ
  temp : ℚ
  atemp : ℚ
  hum : ℚ
  windspeed : ℚ
deriving DecidableEq

/-- The ranges the input widgets constrain the context fields to
(src/app.py lines 140 to 166). -/
def validContext (c : Context) : Prop :=
  c.season ∈ ([1, 2, 3, 4] : List ℕ) ∧
  1 ≤ c.mnth ∧ c.mnth ≤ 12 ∧
  c.holiday ∈ ([0, 1] : List ℕ) ∧
  c.workingday ∈ ([0, 1] : List ℕ) ∧
  c.weathersit ∈ ([1, 2, 3, 4] : List ℕ) ∧
  0 ≤ c.temp ∧ c.temp ≤ 1 ∧
  0 ≤ c.atemp ∧ c.atemp ≤ 1 ∧
  0 ≤ c.hum ∧ c.hum ≤ 1 ∧
  0 ≤ c.windspeed ∧ c.windspeed ≤ 1

instance (c : Context) : Decidable (validContext c) := by
  unfold validContext
  infer_instance

/-- The FEATURES column-name list (src/app.py lines 106 to 109). -/
def FEATURES : List String :=
  ["season", "mnth", "hr", "holiday", "weekday",
   "workingday", "weathersit", "temp", "atemp", "hum", "windspeed"]

/-- The single feature row built inside `predict` (src/app.py lines
174 to 177): the nine context globals with `hour` in the `hr` slot and
`wd` in the `weekday` slot, in the fixed FEATURES order. -/
def assembleRow (c : Context) (hour wd : ℕ) : List ℚ :=
  [(c.season : ℚ), (c.mnth : ℚ), (hour : ℚ), (c.holiday : ℚ), (wd : ℚ),
   (c.workingday : ℚ), (c.weathersit : ℚ), c.temp, c.atemp, c.hum, c.windspeed]

/-- The `predict(hour, wd)` function (src/app.py lines 173 to 178):
assemble the row and coerce the model output with `int(...)`. -/
def predict (m : Model) (c : Context) (hour wd : ℕ) : ℤ :=
  pyInt (m (assembleRow c hour wd))

/-- Hourly branch: `hours = list(range(7))` (src/app.py line 187). -/
def hours : List ℕ := List.range 7

/-- Hourly branch: `preds = [predict(h, weekday) for h in hours]`
(src/app.py line 188). -/
def hourlyPreds (m : Model) (c : Context) (weekday : ℕ) : List ℤ :=
  hours.map (fun h => predict m c h weekday)

/-- The hourly DataFrame rows: the Hour column zipped with the
Predicted Rentals column (src/app.py lines 190 to 193). -/
def hourlyPoints (m : Model) (c : Context) (weekday : ℕ) : List (ℕ × ℤ) :=
  hours.zip (hourlyPreds m c weekday)

/-- The hourly metric `sum(preds)` (src/app.py line 195). -/
def hourlyTotal (m : Model) (c : Context) (weekday : ℕ) : ℤ :=
  (hourlyPreds m c weekday).sum

/-- Daily branch: `day_names` (src/app.py line 199). -/
def day_names : List String :=
  ["Mon", "Tue", "Wed", "Thu", "Fri", "Sat", "Sun"]

/-- Daily branch, inner loop (src/app.py lines 203 to 205): `day_total`
accumulated over `h in range(24)` for one weekday. -/
def dayTotal (m : Model) (c : Context) (wd : ℕ) : ℤ :=
  ((List.range 24).map (fun h => predict m c h wd)).sum

/-- Daily branch: `daily_values`, one day total per `wd in range(7)`
(src/app.py lines 200 to 206). -/
def daily_values (m : Model) (c : Context) : List ℤ :=
  (List.range 7).map (fun wd => dayTotal m c wd)

/-- The daily DataFrame rows: the Day column zipped with the
Predicted Rentals column (src/app.py lines 208 to 211). -/
def dailyPoints (m : Model) (c : Context) : List (String × ℤ) :=
  day_names.zip (daily_values m c)

/-- The daily metric `sum(daily_values)` (src/app.py line 213). -/
def dailyTotal (m : Model) (c : Context) : ℤ :=
  (daily_values m c).sum

/-- The spec section 8 worked example context: season 1, month 6,
no holiday, working day, weather 1, temp .5, atemp .5, hum .6,
windspeed .3. -/
def exampleCtx : Context :=
  ⟨1, 6, 0, 1, 1, mkRat 1 2, mkRat 1 2, mkRat 3 5, mkRat 3 10⟩

/-- Instrumented `predict`: its value together with the one row the call
passes to `model.predict` (src/app.py line 178). -/
def predictLogged (m : Model) (c : Context) (hour wd : ℕ) : ℤ × List (List ℚ) :=
  (predict m c hour wd, [assembleRow c hour wd])

/-- The hourly branch instrumented with the rows sent to the model:
the comprehension on src/app.py line 188, one model call per hour. -/
def hourlyRunLogged (m : Model) (c : Context) (weekday : ℕ) :
    List ℤ × List (List ℚ) :=
  let calls := hours.map (fun h => predictLogged m c h weekday)
  (calls.map Prod.fst, (calls.map Prod.snd).flatten)

/-- One daily inner loop instrumented with the rows sent to the model
(src/app.py lines 203 to 205). -/
def dayRunLogged (m : Model) (c : Context) (wd : ℕ) : ℤ × List (List ℚ) :=
  let calls := (List.range 24).map (fun h => predictLogged m c h wd)
  ((calls.map Prod.fst).sum, (calls.map Prod.snd).flatten)

/-- The daily branch instrumented with the rows sent to the model
(src/app.py lines 200 to 206). -/
def dailyRunLogged (m : Model) (c : Context) : List ℤ × List (List ℚ) :=
  let days := (List.range 7).map (fun wd => dayRunLogged m c wd)
  (days.map Prod.fst, (days.map Prod.snd).flatten)

/-- Whether the character list `n` is an initial segment of `h`. -/
def leadsChars : List Char → List Char → Bool
  | [], _ => true
  | _ :: _, [] => false
  | a :: as, b :: bs => a == b && leadsChars as bs

/-- Whether the character list `n` occurs contiguously inside `h`. -/
def containsChars (n : List Char) : List Char → Bool
  | [] => leadsChars n []
  | c :: rest => leadsChars n (c :: rest) || containsChars n rest

/-- Python `needle in hay` on strings (substring test), as used by
`if "Hourly" in mode` (src/app.py line 186). -/
def pyInStr (needle hay : String) : Bool :=
  containsChars needle.toList hay.toList

/-- The two options of the Forecast Type radio (src/app.py line 119). -/
def modeOptions : List String := ["Hourly ⏱️", "Daily 📅"]

/-- The error message `st.error` shows when the model file is missing
(src/app.py line 100). -/
def modelMissingMessage : String := "❌ Model file not found"

/-- MODEL_PATH (src/app.py lines 88 to 91): `os.path.join` of the
app directory, "..", and the artifact filename, under POSIX join rules. -/
def MODEL_PATH (baseDir : String) : String :=
  baseDir ++ "/.." ++ "/bike_demand_model.pkl"

/-- The `load_model` body (src/app.py lines 97 to 102): if the path does
not exist, show the error and stop the script (`Except.error`), else load
the artifact from disk. -/
def load_model (pathExists : Bool) (disk : FallibleModel) :
    Except String FallibleModel :=
  if !pathExists then Except.error modelMissingMessage
  else Except.ok disk

/-- What the script renders on one run: nothing (button not pressed), or
the hourly table plus its total metric, or the daily table plus its total
metric (src/app.py lines 183 to 241). -/
inductive ScriptOutput where
  | silent
  | hourlyView (points : List (ℕ × ℤ)) (total : ℤ)
  | dailyView (points : List (String × ℤ)) (total : ℤ)
deriving DecidableEq

/-- A Python list comprehension or accumulation loop over `l` whose body
`f` may raise: the first exception aborts the whole loop, discarding every
value produced so far. -/
def collectE (f : ℕ → Except String ℤ) : List ℕ → Except String (List ℤ)
  | [] => Except.ok []
  | h :: rest =>
    match f h with
    | Except.error e => Except.error e
    | Except.ok v =>
      match collectE f rest with
      | Except.error e => Except.error e
      | Except.ok vs => Except.ok (v :: vs)

/-- `predict` over a model whose predict call may raise: the exception
passes through untouched, otherwise the output is coerced with `int(...)`
(src/app.py lines 173 to 178). -/
def predictE (m : FallibleModel) (c : Context) (hour wd : ℕ) :
    Except String ℤ :=
  (m (assembleRow c hour wd)).map pyInt

/-- The daily inner loop over a fallible model (src/app.py lines 203 to
205): `day_total` is the sum of the 24 hourly calls, and any exception
aborts the accumulation. -/
def dayTotalE (m : FallibleModel) (c : Context) (wd : ℕ) : Except String ℤ :=
  (collectE (fun h => predictE m c h wd) (List.range 24)).map List.sum

/-- One full script run (src/app.py): `load_model` runs at import time and
a failure stops everything; if the button is pressed the hourly or the
daily branch runs, chosen by `"Hourly" in mode`; an exception anywhere
propagates uncaught (`Except.error`). The `hr` slider value is bound on
line 168 and never used afterwards. -/
def runScript (pathExists : Bool) (disk : FallibleModel) (c : Context)
    (mode : String) (weekday hr : ℕ) (pressed : Bool) :
    Except String ScriptOutput :=
  match load_model pathExists disk with
  | Except.error e => Except.error e
  | Except.ok model =>
    if pressed then
      if pyInStr "Hourly" mode then
        match collectE (fun h => predictE model c h weekday) hours with
        | Except.error e => Except.error e
        | Except.ok preds =>
          Except.ok (ScriptOutput.hourlyView (hours.zip preds) preds.sum)
      else
        match collectE (fun wd => dayTotalE model c wd) (List.range 7) with
        | Except.error e => Except.error e
        | Except.ok dailyVals =>
          Except.ok (ScriptOutput.dailyView (day_names.zip dailyVals) dailyVals.sum)
    else
      Except.ok ScriptOutput.silent

/-- Modelled from the spec: the `st.cache_resource` decoration on
`load_model` (the cache lives in the streamlit library, not in src/).
Per the spec, the first successful call performs the disk read and caches
the result for the remainder of the process; subsequent calls return the
cached instance with no I/O. The state is the cached instance, if any,
plus a disk-read counter. -/
structure CacheState where
  cached : Option FallibleModel
  diskReads : ℕ

/-- Modelled from the spec: one call of the cached `load_model`. On a
cache hit the stored instance is returned and no disk read happens; on a
miss the undecorated body runs and a successful result is stored. -/
def cachedLoadModel (pathExists : Bool) (disk : FallibleModel)
    (s : CacheState) : Except String FallibleModel × CacheState :=
  match s.cached with
  | some m => (Except.ok m, s)
  | none =>
    match load_model pathExists disk with
    | Except.ok m => (Except.ok m, ⟨some m, s.diskReads + 1⟩)
    | Except.error e => (Except.error e, ⟨none, s.diskReads⟩)

/-- A model artifact outputting the same constant on every row. -/
def constModel (q : ℚ) : Model := fun _ => q

/-- A model artifact outputting -3/2 on every row. -/
def negHalfModel : Model := fun _ => mkRat (-3) 2

/-- A fallible model that never raises, wrapping a plain model. -/
def okModel (m : Model) : FallibleModel := fun row => Except.ok (m row)

/-- A fallible model whose predict call always raises. -/
def raisingModel (e : String) : FallibleModel := fun _ => Except.error e

theorem collectE_ok (g : ℕ → ℤ) (l : List ℕ) :
    collectE (fun h => Except.ok (g h)) l = Except.ok (l.map g) := by
  induction l with
  | nil => rfl
  | cons x xs ih => simp [collectE, ih]

theorem collectE_error_of_mem (f : ℕ → Except String ℤ) (l : List ℕ) (a : ℕ)
    (ha : a ∈ l) (e : String) (hf : f a = Except.error e) :
    ∃ d, collectE f l = Except.error d ∧ ∃ b ∈ l, f b = Except.error d := by
  induction l with
  | nil => cases ha
  | cons x xs ih =>
    cases hx : f x with
    | error d =>
      exact ⟨d, by simp [collectE, hx], x, List.mem_cons_self x xs, hx⟩
    | ok v =>
      have ha2 : a ∈ xs := by
        rcases List.mem_cons.mp ha with h1 | h1
        · subst h1
          rw [hx] at hf
          cases hf
        · exact h1
      obtain ⟨d, hd, b, hb, hfb⟩ := ih ha2
      exact ⟨d, by simp [collectE, hx, hd], b, List.mem_cons_of_mem x hb, hfb⟩

/-- With a model that never raises, the hourly branch of the script renders
exactly the pure hourly points and total: the fallible and the pure
embeddings of src/app.py lines 186 to 195 agree. -/
theorem runScript_hourly_agrees (m : Model) (c : Context) (weekday hr : ℕ) :
    runScript true (okModel m) c "Hourly ⏱️" weekday hr true =
      Except.ok (ScriptOutput.hourlyView (hourlyPoints m c weekday)
        (hourlyTotal m c weekday)) := by
  have hm : pyInStr "Hourly" "Hourly ⏱️" = true := by decide
  have h1 : collectE (fun h => predictE (okModel m) c h weekday) hours =
      Except.ok (hourlyPreds m c weekday) :=
    collectE_ok (fun h => predict m c h weekday) hours
  simp [runScript, load_model, hm, h1, hourlyPoints, hourlyTotal]

/-- With a model that never raises, the daily branch of the script renders
exactly the pure daily points and total: the fallible and the pure
embeddings of src/app.py lines 198 to 213 agree. -/
theorem runScript_daily_agrees (m : Model) (c : Context) (weekday hr : ℕ) :
    runScript true (okModel m) c "Daily 📅" weekday hr true =
      Except.ok (ScriptOutput.dailyView (dailyPoints m c) (dailyTotal m c)) := by
  have hm : pyInStr "Hourly" "Daily 📅" = false := by decide
  have hday : ∀ wd, dayTotalE (okModel m) c wd = Except.ok (dayTotal m c wd) := by
    intro wd
    have h2 : collectE (fun h => predictE (okModel m) c h wd) (List.range 24) =
        Except.ok ((List.range 24).map (fun h => predict m c h wd)) :=
      collectE_ok (fun h => predict m c h wd) (List.range 24)
    simp [dayTotalE, h2, dayTotal, Except.map]
  have h1 : collectE (fun wd => dayTotalE (okModel m) c wd) (List.range 7) =
      Except.ok (daily_values m c) := by
    have := collectE_ok (fun wd => dayTotal m c wd) (List.range 7)
    calc collectE (fun wd => dayTotalE (okModel m) c wd) (List.range 7)
        = collectE (fun wd => Except.ok (dayTotal m c wd)) (List.range 7) := by
          simp [hday]
      _ = Except.ok (daily_values m c) := this
  simp [runScript, load_model, hm, h1, dailyPoints, dailyTotal]

/-- C1: for every valid context and weekday in 0..6, the hourly branch
returns exactly 7 points, indexed by hour 0..6 in ascending order, each
predicted with the given fixed weekday, and the reported total equals the
arithmetic sum of the 7 predicted values. -/
theorem runHourly_seven_points (m : Model) (c : Context) (weekday : ℕ)
    (hc : validContext c) (hw : weekday ≤ 6) :
    (hourlyPoints m c weekday).length = 7 ∧
    (hourlyPoints m c weekday).map Prod.fst = [0, 1, 2, 3, 4, 5, 6] ∧
    List.Pairwise (fun a b => a < b) ((hourlyPoints m c weekday).map Prod.fst) ∧
    (hourlyPoints m c weekday).map Prod.snd =
      (List.range 7).map (fun h => predict m c h weekday) ∧
    hourlyTotal m c weekday = ((hourlyPoints m c weekday).map Prod.snd).sum := by
  refine ⟨rfl, rfl, ?_, rfl, rfl⟩
  have hfst : (hourlyPoints m c weekday).map Prod.fst = [0, 1, 2, 3, 4, 5, 6] := rfl
  rw [hfst]
  decide

/-- Witness for C1 at the spec section 8 example context, weekday 2, and a
constant model. -/
theorem runHourly_seven_points_witness :
    (hourlyPoints (constModel 5) exampleCtx 2).length = 7 ∧
    (hourlyPoints (constModel 5) exampleCtx 2).map Prod.fst = [0, 1, 2, 3, 4, 5, 6] ∧
    List.Pairwise (fun a b => a < b)
      ((hourlyPoints (constModel 5) exampleCtx 2).map Prod.fst) ∧
    (hourlyPoints (constModel 5) exampleCtx 2).map Prod.snd =
      (List.range 7).map (fun h => predict (constModel 5) exampleCtx h 2) ∧
    hourlyTotal (constModel 5) exampleCtx 2 =
      ((hourlyPoints (constModel 5) exampleCtx 2).map Prod.snd).sum :=
  runHourly_seven_points (constModel 5) exampleCtx 2 (by decide) (by decide)

/-- C2: for every valid context, the daily branch returns exactly 7 points
labeled Mon..Sun in that fixed order, weekday 0 mapped to Mon through
weekday 6 mapped to Sun, each value the sum of the 24 hourly predictions
of its weekday, and the total the sum of the 7 daily sums. -/
theorem runDaily_seven_days (m : Model) (c : Context) (hc : validContext c) :
    (dailyPoints m c).length = 7 ∧
    (dailyPoints m c).map Prod.fst =
      ["Mon", "Tue", "Wed", "Thu", "Fri", "Sat", "Sun"] ∧
    dailyPoints m c =
      [("Mon", dayTotal m c 0), ("Tue", dayTotal m c 1), ("Wed", dayTotal m c 2),
       ("Thu", dayTotal m c 3), ("Fri", dayTotal m c 4), ("Sat", dayTotal m c 5),
       ("Sun", dayTotal m c 6)] ∧
    (∀ wd, dayTotal m c wd =
      ((List.range 24).map (fun h => predict m c h wd)).sum) ∧
    dailyTotal m c = ((dailyPoints m c).map Prod.snd).sum :=
  ⟨rfl, rfl, rfl, fun _ => rfl, rfl⟩

/-- Witness for C2 at the spec section 8 example context and a constant
model. -/
theorem runDaily_seven_days_witness :
    (dailyPoints (constModel 5) exampleCtx).length = 7 ∧
    (dailyPoints (constModel 5) exampleCtx).map Prod.fst =
      ["Mon", "Tue", "Wed", "Thu", "Fri", "Sat", "Sun"] ∧
    dailyPoints (constModel 5) exampleCtx =
      [("Mon", dayTotal (constModel 5) exampleCtx 0),
       ("Tue", dayTotal (constModel 5) exampleCtx 1),
       ("Wed", dayTotal (constModel 5) exampleCtx 2),
       ("Thu", dayTotal (constModel 5) exampleCtx 3),
       ("Fri", dayTotal (constModel 5) exampleCtx 4),
       ("Sat", dayTotal (constModel 5) exampleCtx 5),
       ("Sun", dayTotal (constModel 5) exampleCtx 6)] ∧
    (∀ wd, dayTotal (constModel 5) exampleCtx wd =
      ((List.range 24).map (fun h => predict (constModel 5) exampleCtx h wd)).sum) ∧
    dailyTotal (constModel 5) exampleCtx =
      ((dailyPoints (constModel 5) exampleCtx).map Prod.snd).sum :=
  runDaily_seven_days (constModel 5) exampleCtx (by decide)

/-- C3 counterexample: at a valid context a model whose output is -3/2
yields predicted count -1, so the claim that every predicted_count is
non-negative is false on the code, which applies `int(...)` with no
clamping. -/
theorem predict_can_be_negative :
    validContext exampleCtx ∧
    predict negHalfModel exampleCtx 12 2 = -1 ∧
    ¬ 0 ≤ predict negHalfModel exampleCtx 12 2 := by
  decide

/-- C3 (amended): predicted_count is the model output coerced to an
integer by `int(...)`; it is non-negative whenever the model output is
non-negative, but the code never clamps a negative output. -/
theorem predict_int_coercion (m : Model) (c : Context) (hour wd : ℕ)
    (h : 0 ≤ m (assembleRow c hour wd)) :
    predict m c hour wd = pyInt (m (assembleRow c hour wd)) ∧
    0 ≤ predict m c hour wd := by
  refine ⟨rfl, ?_⟩
  unfold predict pyInt
  rw [if_pos h]
  exact Int.le_floor.mpr (by exact_mod_cast h)

/-- Witness for C3 (amended) at a constant non-negative model. -/
theorem predict_int_coercion_witness :
    predict (constModel 5) exampleCtx 12 2 =
      pyInt (constModel 5 (assembleRow exampleCtx 12 2)) ∧
    0 ≤ predict (constModel 5) exampleCtx 12 2 :=
  predict_int_coercion (constModel 5) exampleCtx 12 2 (by decide)

/-- C4 counterexample: when the model path is missing the surfaced message
is the fixed string of src/app.py line 100, and it names neither the
artifact filename nor the model path, refuting the claim that the message
names the missing path. -/
theorem modelNotFound_message_lacks_path :
    runScript false (okModel (constModel 5)) exampleCtx "Hourly ⏱️" 2 12 true =
      Except.error modelMissingMessage ∧
    pyInStr "bike_demand_model.pkl" modelMissingMessage = false ∧
    pyInStr (MODEL_PATH "/app/src") modelMissingMessage = false :=
  ⟨rfl, by decide, by decide⟩

/-- C4 (amended): when the model path does not exist every run halts with
the fixed ModelNotFound message before any prediction attempt: no series
is produced, and the outcome does not depend on the model artifact at all
(so the artifact is never consulted). The message does not name the
missing path. -/
theorem modelNotFound_halts (disk disk2 : FallibleModel) (c : Context)
    (mode : String) (weekday hr : ℕ) (pressed : Bool) :
    runScript false disk c mode weekday hr pressed =
      Except.error modelMissingMessage ∧
    (∀ o, runScript false disk c mode weekday hr pressed ≠ Except.ok o) ∧
    runScript false disk c mode weekday hr pressed =
      runScript false disk2 c mode weekday hr pressed := by
  refine ⟨rfl, ?_, rfl⟩
  intro o h
  exact Except.noConfusion h

/-- C5: feature assembly is deterministic and the 11 fields appear in the
exact FEATURES order, with `hour` in the `hr` slot and `wd` in the
`weekday` slot. -/
theorem assemble_deterministic_ordered (c : Context) (hour wd : ℕ) :
    assembleRow c hour wd =
      [(c.season : ℚ), (c.mnth : ℚ), (hour : ℚ), (c.holiday : ℚ), (wd : ℚ),
       (c.workingday : ℚ), (c.weathersit : ℚ), c.temp, c.atemp, c.hum,
       c.windspeed] ∧
    FEATURES = ["season", "mnth", "hr", "holiday", "weekday",
                "workingday", "weathersit", "temp", "atemp", "hum",
                "windspeed"] ∧
    (assembleRow c hour wd).length = FEATURES.length ∧
    ∀ (c2 : Context) (hour2 wd2 : ℕ), c = c2 → hour = hour2 → wd = wd2 →
      assembleRow c hour wd = assembleRow c2 hour2 wd2 := by
  refine ⟨rfl, rfl, rfl, ?_⟩
  rintro c2 hour2 wd2 rfl rfl rfl
  rfl

/-- Witness for C5: determinism applied at the example inputs. -/
theorem assemble_deterministic_ordered_witness :
    assembleRow exampleCtx 12 2 = assembleRow exampleCtx 12 2 :=
  (assemble_deterministic_ordered exampleCtx 12 2).2.2.2 exampleCtx 12 2
    rfl rfl rfl

/-- C6: per trigger, the model receives exactly 7 rows in hourly mode,
with `hr` ranging over 0..6 and the weekday fixed at the selected value,
and exactly 168 rows in daily mode, one per (weekday, hour) pair of the
two loops; the instrumented runs compute the same values as the plain
branches. -/
theorem model_call_counts (m : Model) (c : Context) (weekday : ℕ) :
    (hourlyRunLogged m c weekday).2.length = 7 ∧
    (hourlyRunLogged m c weekday).2 =
      (List.range 7).map (fun h => assembleRow c h weekday) ∧
    (hourlyRunLogged m c weekday).1 = hourlyPreds m c weekday ∧
    (dailyRunLogged m c).2.length = 168 ∧
    (dailyRunLogged m c).2 =
      ((List.range 7).map (fun wd =>
        (List.range 24).map (fun h => assembleRow c h wd))).flatten ∧
    (dailyRunLogged m c).1 = daily_values m c :=
  ⟨rfl, rfl, rfl, rfl, rfl, rfl⟩

/-- C7: if any underlying prediction call raises during an aggregation
run, the whole run fails: the script run ends in an error, which in
hourly mode is the error raised by one of the failing calls, and never
renders an ok output, so no partial table, chart or total is shown. -/
theorem prediction_failure_aborts (m : FallibleModel) (c : Context)
    (mode : String) (weekday hr : ℕ) :
    (pyInStr "Hourly" mode = true →
      (∃ h ∈ hours, ∃ e, predictE m c h weekday = Except.error e) →
      ∃ d, runScript true m c mode weekday hr true = Except.error d ∧
        (∃ h ∈ hours, predictE m c h weekday = Except.error d) ∧
        ∀ o, runScript true m c mode weekday hr true ≠ Except.ok o) ∧
    (pyInStr "Hourly" mode = false →
      (∃ wd ∈ List.range 7, ∃ h ∈ List.range 24, ∃ e,
        predictE m c h wd = Except.error e) →
      ∃ d, runScript true m c mode weekday hr true = Except.error d ∧
        ∀ o, runScript true m c mode weekday hr true ≠ Except.ok o) := by
  constructor
  · rintro hmode ⟨h, hh, e, he⟩
    obtain ⟨d, hd, b, hb, hfb⟩ :=
      collectE_error_of_mem (fun h => predictE m c h weekday) hours h hh e he
    refine ⟨d, ?_, ⟨b, hb, hfb⟩, ?_⟩
    · simp [runScript, load_model, hmode, hd]
    · intro o
      simp [runScript, load_model, hmode, hd]
  · rintro hmode ⟨wd, hwd, h, hh, e, he⟩
    have hday : ∃ d1, dayTotalE m c wd = Except.error d1 := by
      obtain ⟨d1, hd1, -⟩ :=
        collectE_error_of_mem (fun h => predictE m c h wd) (List.range 24)
          h hh e he
      exact ⟨d1, by simp [dayTotalE, hd1, Except.map]⟩
    obtain ⟨d1, hd1⟩ := hday
    obtain ⟨d, hd, -⟩ :=
      collectE_error_of_mem (fun wd => dayTotalE m c wd) (List.range 7)
        wd hwd d1 hd1
    refine ⟨d, ?_, ?_⟩
    · simp [runScript, load_model, hmode, hd]
    · intro o
      simp [runScript, load_model, hmode, hd]

/-- Witness for C7: an always-raising model in hourly mode. -/
theorem prediction_failure_aborts_witness :
    ∃ d, runScript true (raisingModel "boom") exampleCtx "Hourly ⏱️" 2 12 true =
        Except.error d ∧
      (∃ h ∈ hours, predictE (raisingModel "boom") exampleCtx h 2 =
        Except.error d) ∧
      ∀ o, runScript true (raisingModel "boom") exampleCtx "Hourly ⏱️" 2 12 true ≠
        Except.ok o :=
  (prediction_failure_aborts (raisingModel "boom") exampleCtx "Hourly ⏱️" 2 12).1
    (by decide) ⟨0, by decide, "boom", rfl⟩

/-- C8: starting from an empty cache with the artifact present, the first
call of the cached `load_model` performs exactly one disk read, a second
call returns the very same instance with no further disk read, and any
call on a warm cache returns the cached instance unchanged, so the model
is loaded at most once per process lifetime. -/
theorem cached_load_single_io (pathExists : Bool) (disk : FallibleModel)
    (hp : pathExists = true) :
    (cachedLoadModel pathExists disk ⟨none, 0⟩).1 = Except.ok disk ∧
    (cachedLoadModel pathExists disk ⟨none, 0⟩).2.diskReads = 1 ∧
    (cachedLoadModel pathExists disk
        (cachedLoadModel pathExists disk ⟨none, 0⟩).2).1 =
      (cachedLoadModel pathExists disk ⟨none, 0⟩).1 ∧
    (cachedLoadModel pathExists disk
        (cachedLoadModel pathExists disk ⟨none, 0⟩).2).2.diskReads =
      (cachedLoadModel pathExists disk ⟨none, 0⟩).2.diskReads ∧
    ∀ (s : CacheState) (m0 : FallibleModel), s.cached = some m0 →
      cachedLoadModel pathExists disk s = (Except.ok m0, s) := by
  subst hp
  refine ⟨rfl, rfl, rfl, rfl, ?_⟩
  intro s m0 hs
  simp [cachedLoadModel, hs]

/-- Witness for C8 with a present artifact and a concrete model. -/
theorem cached_load_single_io_witness :
    (cachedLoadModel true (okModel (constModel 5)) ⟨none, 0⟩).1 =
      Except.ok (okModel (constModel 5)) ∧
    (cachedLoadModel true (okModel (constModel 5)) ⟨none, 0⟩).2.diskReads = 1 ∧
    (cachedLoadModel true (okModel (constModel 5))
        (cachedLoadModel true (okModel (constModel 5)) ⟨none, 0⟩).2).1 =
      (cachedLoadModel true (okModel (constModel 5)) ⟨none, 0⟩).1 ∧
    (cachedLoadModel true (okModel (constModel 5))
        (cachedLoadModel true (okModel (constModel 5)) ⟨none, 0⟩).2).2.diskReads =
      (cachedLoadModel true (okModel (constModel 5)) ⟨none, 0⟩).2.diskReads ∧
    ∀ (s : CacheState) (m0 : FallibleModel), s.cached = some m0 →
      cachedLoadModel true (okModel (constModel 5)) s = (Except.ok m0, s) :=
  cached_load_single_io true (okModel (constModel 5)) rfl

/-- C9: the rendered output never depends on the Hour of Day slider, which
is bound on src/app.py line 168 and never read afterwards; in daily mode
it does not depend on the weekday selection either, since the loop
variables alone feed `predict`. -/
theorem unused_inputs_noninterference (pathExists : Bool)
    (disk : FallibleModel) (c : Context) (mode : String)
    (weekday weekday2 hr hr2 : ℕ) (pressed : Bool) :
    runScript pathExists disk c mode weekday hr pressed =
      runScript pathExists disk c mode weekday hr2 pressed ∧
    (pyInStr "Hourly" mode = false →
      runScript pathExists disk c mode weekday hr pressed =
        runScript pathExists disk c mode weekday2 hr2 pressed) := by
  constructor
  · rfl
  · intro hmode
    cases pathExists with
    | false => rfl
    | true =>
      cases pressed with
      | false => rfl
      | true => simp [runScript, load_model, hmode]

/-- Witness for C9 in daily mode with two different weekday and slider
selections. -/
theorem unused_inputs_noninterference_witness :
    runScript true (okModel (constModel 5)) exampleCtx "Daily 📅" 2 12 true =
      runScript true (okModel (constModel 5)) exampleCtx "Daily 📅" 5 0 true :=
  (unused_inputs_noninterference true (okModel (constModel 5)) exampleCtx
    "Daily 📅" 2 5 12 0 true).2 (by decide)

/-- C10: the `int(...)` coercion in `predict` is truncation toward zero:
floor on non-negative outputs and ceiling on negative ones, so a model
output of 3.9 yields 3 (not 4), and an output of -3/2 yields the negative
count -1 (no clamping). -/
theorem predict_truncates_toward_zero :
    (∀ (m : Model) (c : Context) (hour wd : ℕ),
      predict m c hour wd = pyInt (m (assembleRow c hour wd))) ∧
    (∀ q : ℚ, 0 ≤ q → pyInt q = ⌊q⌋) ∧
    (∀ q : ℚ, q < 0 → pyInt q = ⌈q⌉) ∧
    (mkRat 39 10 : ℚ) = 39 / 10 ∧
    pyInt (mkRat 39 10) = 3 ∧
    predict (constModel (mkRat 39 10)) exampleCtx 12 2 = 3 ∧
    (∃ q : ℚ, q < 0 ∧ pyInt q < 0) ∧
    predict negHalfModel exampleCtx 12 2 = -1 ∧
    predict negHalfModel exampleCtx 12 2 < 0 := by
  refine ⟨fun m c hour wd => rfl, ?_, ?_, by norm_num, by decide, by decide,
    ⟨mkRat (-3) 2, by decide, by decide⟩, by decide, by decide⟩
  · intro q hq
    unfold pyInt
    rw [if_pos hq]
  · intro q hq
    unfold pyInt
    rw [if_neg (not_le.mpr hq)]

/-- Witness for C10: the floor case of the coercion evaluated at 5. -/
theorem predict_truncates_toward_zero_witness :
    pyInt 5 = ⌊(5 : ℚ)⌋ :=
  predict_truncates_toward_zero.2.1 5 (by decide)

end AiRideWise
